import Mathlib

/-!
Verification of the SmartDiet Planner web application (`app.py`) against its
natural-language specification, via a shallow embedding of the route handlers
into Lean.

Modelling conventions:
  * Python dictionaries holding form/document fields become association lists
    or structures with `Option`-valued fields (a missing key is `none`).
  * Python's `float(...)` conversion on the strings this app stores is modelled
    by `pyFloat` over exact rationals (plain decimal literals with an optional
    sign and fraction part; the app never produces exponent forms).
  * `random.choice(xs)` is modelled by indexing with an arbitrary seed
    `k : Nat`, picking `xs[k % xs.length]`; properties are stated for every
    seed, and reachability of every element is stated by exhibiting a seed.
  * The pre-trained classifier is an opaque deterministic function
    `List ℚ → Nat` passed as a parameter.
-/

namespace SmartDiet

/-- A value stored in a profile document field: Python `None`, a string from
the submitted form, or a number (the derived BMI is stored as a float). -/
inductive Val where
  | null : Val
  | str : String → Val
  | num : ℚ → Val
deriving DecidableEq, Repr

/-- Python truthiness of a stored field value: `None`, `""` and `0` are falsy. -/
def Val.truthy : Val → Bool
  | .null => false
  | .str s => s ≠ ""
  | .num q => q ≠ 0

/-- Natural number denoted by a list of decimal digit characters
(empty list denotes 0, as in the fraction part of `"12."`). -/
def digitsToNat (cs : List Char) : Nat :=
  cs.foldl (fun acc c => acc * 10 + (c.toNat - '0'.toNat)) 0

/-- Parse an unsigned decimal literal (forms `123`, `123.45`, `123.`, `.45`)
into an exact rational; `none` when the characters are not such a literal. -/
def parseUnsigned (cs : List Char) : Option ℚ :=
  let ip := cs.takeWhile Char.isDigit
  let rest := cs.dropWhile Char.isDigit
  match rest with
  | [] => if ip = [] then none else some (digitsToNat ip)
  | '.' :: fp =>
      if fp.all Char.isDigit ∧ (ip ≠ [] ∨ fp ≠ []) then
        some ((digitsToNat ip : ℚ) + (digitsToNat fp : ℚ) / (10 : ℚ) ^ fp.length)
      else none
  | _ => none

/-- Python `float(s)` on the decimal-literal strings this application handles:
optional sign, digits, optional fraction. `none` models a raised `ValueError`. -/
def pyFloatStr (s : String) : Option ℚ :=
  match s.toList with
  | '-' :: rest => (parseUnsigned rest).map Neg.neg
  | '+' :: rest => parseUnsigned rest
  | cs => parseUnsigned cs

/-- Python `float(v)` on a stored field value; `none` models a raised
`ValueError` (non-numeric string) or `TypeError` (`None`). -/
def pyFloat : Val → Option ℚ
  | .null => none
  | .str s => pyFloatStr s
  | .num q => some q

/-- One meal-option set: a Python dict from meal-slot name to dish string,
as an association list. -/
def MealOption := List (String × String)
deriving DecidableEq, Repr

/-- Python `slot in option`. -/
def MealOption.hasSlot (o : MealOption) (slot : String) : Bool :=
  (List.lookup slot o).isSome

/-- Python `option[slot]`, defaulting to `""` (the app only indexes after an
`in` check, so the default is never observed). -/
def MealOption.get (o : MealOption) (slot : String) : String :=
  (List.lookup slot o).getD ""

/-- A diet-plan entry of the content store: `name`, `description` and the
list of meal-option sets (`meal_options`, possibly absent in the JSON,
modelled by a plain list with absence as `[]`, matching `.get(..., [])`). -/
structure DietPlan where
  name : String
  description : String
  meal_options : List MealOption
deriving DecidableEq, Repr

/-- The content store `DIET_PLANS_DATA`: a dict from diet name to plan. -/
def DietStore := List (String × DietPlan)

/-- Python `DIET_PLANS_DATA.get(diet_name)`. -/
def DietStore.get (s : DietStore) (name : String) : Option DietPlan :=
  List.lookup name s

/-- Result of the `/get-swap` route: either a structured failure with a
message and HTTP status, or a success JSON carrying `new_meal`. -/
inductive SwapResult where
  | failure : String → Nat → SwapResult
  | ok : String → SwapResult
deriving DecidableEq, Repr

/-- The `possible_swaps` list comprehension of `get_swap`: the slot's value
from every option set that contains the slot and whose value differs from
`current_meal`, in order. -/
def possibleSwaps (options : List MealOption) (meal_type current_meal : String) :
    List String :=
  (options.filter
      (fun o => o.hasSlot meal_type && o.get meal_type != current_meal)).map
    (fun o => o.get meal_type)

/-- `random.choice(xs)` under choice seed `k`: the element at index
`k % xs.length` (only called on non-empty lists in the app). -/
def randomChoice (xs : List String) (k : Nat) : String :=
  (xs.get? (k % xs.length)).getD ""

/-- Shallow embedding of the `get_swap` route handler. The three request
parameters come in as `Option String` (`None` when absent from the query
string); `k` is the `random.choice` seed. -/
def get_swap (store : DietStore) (diet_name meal_type current_meal : Option String)
    (k : Nat) : SwapResult :=
  if diet_name.getD "" = "" ∨ meal_type.getD "" = "" ∨ current_meal.getD "" = "" then
    .failure "Missing required parameters." 400
  else
    match store.get (diet_name.getD "") with
    | none => .failure "Invalid diet name." 404
    | some diet_data =>
        let swaps :=
          possibleSwaps diet_data.meal_options (meal_type.getD "") (current_meal.getD "")
        if swaps = [] then .ok (current_meal.getD "")
        else .ok (randomChoice swaps k)

/-- A stored profile document as read by `/get-prediction`: each field is
`none` when the key is absent from the document (in particular the `or {}`
fallback for a user with no profile is the all-`none` record), and
`some v` when present with stored value `v`. -/
structure Profile where
  age : Option Val
  gender : Option Val
  height_cm : Option Val
  weight_kg : Option Val
  bmi : Option Val
  chronic_disease : Option Val
  blood_pressure_systolic : Option Val
  blood_pressure_diastolic : Option Val
  cholesterol_level : Option Val
  blood_sugar_level : Option Val
  sleep_hours : Option Val
deriving DecidableEq, Repr

/-- The guard of `get_prediction`:
`all(k in profile for k in ["age","gender","height_cm","weight_kg"])`
and `profile["age"]` truthy. -/
def Profile.requiredOk (p : Profile) : Bool :=
  p.age.isSome && p.gender.isSome && p.height_cm.isSome && p.weight_kg.isSome &&
    (p.age.getD .null).truthy

/-- `float(profile.get(key))` for a required field: `profile.get` yields
`None` for an absent key, and `float` fails on `None` or a non-numeric
string. -/
def floatReq (v : Option Val) : Option ℚ :=
  pyFloat (v.getD .null)

/-- `float(profile.get(key) or d)` for an optional field: a falsy stored
value (absent key, `None`, empty string, or the number 0) falls back to the
constant `d`; a truthy value is converted and may fail. -/
def floatOrDefault (v : Option Val) (d : ℚ) : Option ℚ :=
  let w := v.getD .null
  if w.truthy then pyFloat w else some d

/-- The 11-element feature vector of `get_prediction`, `none` when any
`float(...)` conversion raises (the route's `except (ValueError, TypeError)`
branch). -/
def buildFeatures (p : Profile) : Option (List ℚ) := do
  let a ← floatReq p.age
  let g ← floatReq p.gender
  let h ← floatReq p.height_cm
  let w ← floatReq p.weight_kg
  let bmi ← floatOrDefault p.bmi (242 / 10 : ℚ)
  let cd ← floatOrDefault p.chronic_disease 0
  let bps ← floatOrDefault p.blood_pressure_systolic 120
  let bpd ← floatOrDefault p.blood_pressure_diastolic 80
  let chol ← floatOrDefault p.cholesterol_level 180
  let bs ← floatOrDefault p.blood_sugar_level 95
  let sl ← floatOrDefault p.sleep_hours 7
  pure [a, g, h, w, bmi, cd, bps, bpd, chol, bs, sl]

/-- The fixed `meal_plan_map` dictionary of `get_prediction`. -/
def meal_plan_map : Nat → Option String
  | 0 => some "Balanced Diet"
  | 1 => some "High Protein"
  | 2 => some "Low Carb"
  | 3 => some "Low Fat"
  | 4 => some "Mediterranean"
  | _ => none

/-- Result of the `/get-prediction` route: a structured failure with a
message, or a success JSON carrying `meal_plan` and `recommendation`
(`none` is JSON `null`). -/
inductive PredResult where
  | failure : String → PredResult
  | success : String → Option MealOption → PredResult
deriving DecidableEq, Repr

/-- Shallow embedding of the `get_prediction` route handler. `classify`
abstracts `argmax(model.predict(scaler.transform(features)))` as an opaque
deterministic function, and `k` is the `random.choice` seed. -/
def get_prediction (store : DietStore) (p : Profile) (classify : List ℚ → Nat)
    (k : Nat) : PredResult :=
  if ¬ p.requiredOk then
    .failure "Please complete your profile first! Age, gender, height, and weight are required."
  else
    match buildFeatures p with
    | none => .failure "Invalid data in profile. Please check your details."
    | some features =>
        match meal_plan_map (classify features) with
        | none => .failure "Could not find a matching diet plan for the prediction."
        | some meal_plan_name =>
            match store.get meal_plan_name with
            | none => .failure "Could not find a matching diet plan for the prediction."
            | some predicted_diet_data =>
                let all_recommendations := predicted_diet_data.meal_options
                .success meal_plan_name
                  (all_recommendations.get? (k % all_recommendations.length))

/-- Round half to even to an integer, as Python's built-in `round`. -/
def roundHalfEven (q : ℚ) : ℤ :=
  let f := ⌊q⌋
  let r := q - f
  if r < 1/2 then f
  else if 1/2 < r then f + 1
  else if f % 2 = 0 then f else f + 1

/-- Python `round(q, 1)` (the app computes BMI exactly in our rational
model, so the binary-float representation issue does not arise). -/
def pyRound1 (q : ℚ) : ℚ :=
  (roundHalfEven (q * 10) : ℚ) / 10

/-- The BMI computation of the `/profile` POST handler: runs only when both
form fields are truthy (present and non-empty); a `ValueError` from
`float(...)` or the `ZeroDivisionError` from a zero height leaves `bmi`
as `None`. -/
def computeBmi (height_cm weight_kg : Option String) : Option ℚ :=
  match height_cm, weight_kg with
  | some h, some w =>
      if h ≠ "" ∧ w ≠ "" then
        match pyFloatStr h, pyFloatStr w with
        | some hq, some wq =>
            let height_m := hq / 100
            if height_m ^ 2 = 0 then none
            else some (pyRound1 (wq / height_m ^ 2))
        | _, _ => none
      else none
  | _, _ => none

/-- The fields submitted by the `/profile` POST form; each is
`request.form.get(...)`, `none` when the field is absent from the form. -/
structure ProfileForm where
  age : Option String
  gender : Option String
  height_cm : Option String
  weight_kg : Option String
  chronic_disease : Option String
  blood_pressure_systolic : Option String
  blood_pressure_diastolic : Option String
  cholesterol_level : Option String
  blood_sugar_level : Option String
  sleep_hours : Option String
deriving DecidableEq, Repr

/-- A stored profile document, with the fields the `/profile` handler
writes (`data` dict): raw form strings plus the derived `bmi`. -/
structure ProfileDoc where
  user_id : String
  age : Option String
  gender : Option String
  height_cm : Option String
  weight_kg : Option String
  bmi : Option ℚ
  chronic_disease : Option String
  blood_pressure_systolic : Option String
  blood_pressure_diastolic : Option String
  cholesterol_level : Option String
  blood_sugar_level : Option String
  sleep_hours : Option String
deriving DecidableEq, Repr

/-- The `data` document the `/profile` handler writes: every profile field
set from the submitted form, with `bmi` derived. -/
def mkProfileDoc (uid : String) (f : ProfileForm) : ProfileDoc :=
  { user_id := uid
    age := f.age
    gender := f.gender
    height_cm := f.height_cm
    weight_kg := f.weight_kg
    bmi := computeBmi f.height_cm f.weight_kg
    chronic_disease := f.chronic_disease
    blood_pressure_systolic := f.blood_pressure_systolic
    blood_pressure_diastolic := f.blood_pressure_diastolic
    cholesterol_level := f.cholesterol_level
    blood_sugar_level := f.blood_sugar_level
    sleep_hours := f.sleep_hours }

/-- `update_one({"user_id": uid}, {"$set": data}, upsert=True)`: the first
document matching the filter has every one of its (modelled) fields set —
the `data` dict lists every field of the document — and when none matches,
the new document is inserted. -/
def submitProfile (uid : String) (f : ProfileForm) :
    List ProfileDoc → List ProfileDoc
  | [] => [mkProfileDoc uid f]
  | d :: ds =>
      if d.user_id = uid then mkProfileDoc uid f :: ds
      else d :: submitProfile uid f ds

/-- A "like" record: one (user id, diet name, plan index) triple. -/
structure LikeRec where
  user : String
  diet_name : String
  plan_index : Nat
deriving DecidableEq, Repr

/-- Does a like record match the given (user, diet, plan index) triple? -/
def matchesLike (u d : String) (i : Nat) (r : LikeRec) : Bool :=
  r.user = u && r.diet_name = d && r.plan_index = i

/-- Modelled from the spec: the like endpoint (`GET /like/{diet_name}/{plan_index}`)
belongs to the second application variant the spec mentions, which is not in
`src/app.py`; per the spec it is an existence check followed by a conditional
insert ("insertion is a no-op if one already exists"). -/
def like (u d : String) (i : Nat) (s : List LikeRec) : List LikeRec :=
  if s.any (matchesLike u d i) then s else s ++ [⟨u, d, i⟩]

/-- Modelled from the spec: `count_likes(diet_name, plan_index)` is a pure
read aggregation over the like records for one (diet, plan-index) pair. -/
def count_likes (d : String) (i : Nat) (s : List LikeRec) : Nat :=
  (s.filter (fun r => r.diet_name = d && r.plan_index = i)).length

/-- The stored like records for one (user, diet, plan index) triple. -/
def likeRecords (u d : String) (i : Nat) (s : List LikeRec) : List LikeRec :=
  s.filter (matchesLike u d i)

/-- A saved-plan / saved-workout document: the Mongo `_id` (opaque, modelled
as `Nat`), the owning `user_id`, and the denormalized snapshot. -/
structure SavedDoc where
  oid : Nat
  user_id : String
  payload : String
deriving DecidableEq, Repr

/-- Response of the delete routes: success JSON, or a failure JSON together
with its HTTP status code. -/
inductive DeleteResult where
  | ok : String → DeleteResult
  | notFound : String → Nat → DeleteResult
deriving DecidableEq, Repr

/-- `collection.delete_one({"_id": oid, "user_id": uid})`: removes the first
document matching both filter fields (at most one is removed) and reports
`deleted_count`. -/
def deleteOne (pid : Nat) (uid : String) (s : List SavedDoc) :
    List SavedDoc × Nat :=
  if s.any (fun r => r.oid == pid && r.user_id == uid) then
    (s.eraseP (fun r => r.oid == pid && r.user_id == uid), 1)
  else (s, 0)

/-- Shallow embedding of the `delete_plan` route handler. -/
def delete_plan (uid : String) (pid : Nat) (s : List SavedDoc) :
    List SavedDoc × DeleteResult :=
  let res := deleteOne pid uid s
  if res.2 = 1 then (res.1, .ok "Plan deleted successfully.")
  else (res.1, .notFound "Plan not found or permission denied." 404)

/-- Shallow embedding of the `delete_workout` route handler. -/
def delete_workout (uid : String) (wid : Nat) (s : List SavedDoc) :
    List SavedDoc × DeleteResult :=
  let res := deleteOne wid uid s
  if res.2 = 1 then (res.1, .ok "Workout deleted successfully.")
  else (res.1, .notFound "Workout not found or permission denied." 404)

/-! ### Concrete fixtures used by witnesses -/

/-- The "Balanced Diet" entry of the bundled content data, with two
meal-option sets as in the spec's worked example. -/
def balanced : DietPlan :=
  { name := "Balanced Diet"
    description := "A balanced mix of nutrients."
    meal_options :=
      [[("Breakfast", "Oats with nuts and banana"),
        ("Lunch", "Grilled chicken with rice"),
        ("Dinner", "Vegetable soup")],
       [("Breakfast", "Poha with peanuts"),
        ("Lunch", "Roti with paneer"),
        ("Dinner", "Khichdi")]] }

/-- A one-diet content store for concrete evaluations. -/
def S0 : DietStore := [("Balanced Diet", balanced)]

/-- The spec's worked-example profile: age 30, gender 1, height 175 cm,
weight 70 kg, everything else left unset. -/
def P0 : Profile :=
  { age := some (.str "30"), gender := some (.str "1")
    height_cm := some (.str "175"), weight_kg := some (.str "70")
    bmi := none, chronic_disease := none
    blood_pressure_systolic := none, blood_pressure_diastolic := none
    cholesterol_level := none, blood_sugar_level := none, sleep_hours := none }

/-! ### Helper lemmas -/

lemma mem_possibleSwaps {options : List MealOption} {mt cm v : String}
    (h : v ∈ possibleSwaps options mt cm) :
    v ≠ cm ∧ ∃ o ∈ options, o.hasSlot mt = true ∧ o.get mt = v := by
  unfold possibleSwaps at h
  simp only [List.mem_map, List.mem_filter] at h
  obtain ⟨o, ⟨ho, hp⟩, rfl⟩ := h
  simp only [Bool.and_eq_true, bne_iff_ne, ne_eq] at hp
  exact ⟨hp.2, o, ho, hp.1, rfl⟩

lemma possibleSwaps_eq_nil_iff {options : List MealOption} {mt cm : String} :
    possibleSwaps options mt cm = [] ↔
      ∀ o ∈ options, o.hasSlot mt = true → o.get mt = cm := by
  unfold possibleSwaps
  simp only [List.map_eq_nil_iff, List.filter_eq_nil_iff, Bool.and_eq_true,
    bne_iff_ne, ne_eq, not_and, not_not]

lemma randomChoice_mem {xs : List String} (h : xs ≠ []) (k : Nat) :
    randomChoice xs k ∈ xs := by
  unfold randomChoice
  have hlen : k % xs.length < xs.length :=
    Nat.mod_lt _ (List.length_pos.mpr h)
  rw [List.get?_eq_get hlen]
  exact List.get_mem _ _ _

/-! ### Claims about `get_swap` -/

/-- C1: for a diet present in the store (and non-empty request parameters),
`get_swap` returns some value from the candidate list — the slot's values
across option sets containing the slot that differ from `current_meal` —
and that value differs from `current_meal`; when the candidate list is
empty it returns `current_meal` unchanged, so the result equals
`current_meal` only when every option-set value for that slot equals it. -/
theorem swap_returns_fresh_candidate (store : DietStore) (dn mt cm : String)
    (dd : DietPlan) (k : Nat) (hdn : dn ≠ "") (hmt : mt ≠ "") (hcm : cm ≠ "")
    (hget : store.get dn = some dd) :
    ∃ v, get_swap store (some dn) (some mt) (some cm) k = .ok v ∧
      (possibleSwaps dd.meal_options mt cm ≠ [] →
        v ∈ possibleSwaps dd.meal_options mt cm ∧ v ≠ cm) ∧
      (possibleSwaps dd.meal_options mt cm = [] → v = cm) ∧
      (v = cm → ∀ o ∈ dd.meal_options, o.hasSlot mt = true → o.get mt = cm) := by
  unfold get_swap
  simp only [Option.getD_some]
  rw [if_neg (by simp [hdn, hmt, hcm]), hget]
  by_cases hsw : possibleSwaps dd.meal_options mt cm = []
  · refine ⟨cm, by simp [hsw], by simp [hsw], fun _ => rfl, ?_⟩
    exact fun _ => possibleSwaps_eq_nil_iff.mp hsw
  · refine ⟨randomChoice (possibleSwaps dd.meal_options mt cm) k, by simp [hsw], ?_, ?_, ?_⟩
    · intro _
      have hmem := randomChoice_mem hsw k
      exact ⟨hmem, (mem_possibleSwaps hmem).1⟩
    · intro h
      exact absurd h hsw
    · intro hv
      exact absurd hv (mem_possibleSwaps (randomChoice_mem hsw k)).1

/-- C1 witness: the spec's swap example on the "Balanced Diet" fixture. -/
theorem swap_returns_fresh_candidate_witness :
    ∃ v, get_swap S0 (some "Balanced Diet") (some "Breakfast")
        (some "Oats with nuts and banana") 0 = .ok v ∧
      (possibleSwaps balanced.meal_options "Breakfast" "Oats with nuts and banana" ≠ [] →
        v ∈ possibleSwaps balanced.meal_options "Breakfast" "Oats with nuts and banana" ∧
          v ≠ "Oats with nuts and banana") ∧
      (possibleSwaps balanced.meal_options "Breakfast" "Oats with nuts and banana" = [] →
        v = "Oats with nuts and banana") ∧
      (v = "Oats with nuts and banana" →
        ∀ o ∈ balanced.meal_options, o.hasSlot "Breakfast" = true →
          o.get "Breakfast" = "Oats with nuts and banana") :=
  swap_returns_fresh_candidate S0 "Balanced Diet" "Breakfast"
    "Oats with nuts and banana" balanced 0 (by decide) (by decide) (by decide)
    (by decide)

/-- The diet plan with only the option sets that contain the given slot:
those lacking it are the ones `get_swap`'s comprehension skips. -/
def keepSlot (dd : DietPlan) (mt : String) : DietPlan :=
  { dd with meal_options := dd.meal_options.filter (fun o => o.hasSlot mt) }

lemma possibleSwaps_filter_hasSlot (options : List MealOption) (mt cm : String) :
    possibleSwaps (options.filter (fun o => o.hasSlot mt)) mt cm =
      possibleSwaps options mt cm := by
  unfold possibleSwaps
  rw [List.filter_filter]
  congr 1
  apply List.filter_congr
  intro o _
  cases h : o.hasSlot mt <;> simp [h]

/-- C9: a failed swap lookup never raises: when the diet name is absent
from the store, `get_swap` returns the structured "Invalid diet name."
failure (HTTP 404); and option sets lacking the requested meal slot are
skipped — removing them from the diet's option list does not change the
response. -/
theorem swap_failure_is_structured (store : DietStore) (dn mt cm : String)
    (k : Nat) (hdn : dn ≠ "") (hmt : mt ≠ "") (hcm : cm ≠ "") :
    (store.get dn = none →
      get_swap store (some dn) (some mt) (some cm) k =
        .failure "Invalid diet name." 404) ∧
    (∀ dd, store.get dn = some dd →
      get_swap store (some dn) (some mt) (some cm) k =
        get_swap [(dn, keepSlot dd mt)] (some dn) (some mt) (some cm) k) := by
  constructor
  · intro hnone
    unfold get_swap
    simp only [Option.getD_some]
    rw [if_neg (by simp [hdn, hmt, hcm]), hnone]
  · intro dd hdd
    have hsingle : DietStore.get [(dn, keepSlot dd mt)] dn = some (keepSlot dd mt) := by
      simp [DietStore.get, List.lookup]
    unfold get_swap
    simp only [Option.getD_some]
    rw [if_neg (by simp [hdn, hmt, hcm]), if_neg (by simp [hdn, hmt, hcm]),
      hdd, hsingle]
    simp only [keepSlot, possibleSwaps_filter_hasSlot]

/-- C9 witness: an absent diet name on the fixture store, with the skip
property instantiated at the "Balanced Diet" entry. -/
theorem swap_failure_is_structured_witness :
    (S0.get "Keto Diet" = none →
      get_swap S0 (some "Keto Diet") (some "Breakfast") (some "Eggs") 0 =
        .failure "Invalid diet name." 404) ∧
    (∀ dd, S0.get "Keto Diet" = some dd →
      get_swap S0 (some "Keto Diet") (some "Breakfast") (some "Eggs") 0 =
        get_swap [("Keto Diet", keepSlot dd "Breakfast")]
          (some "Keto Diet") (some "Breakfast") (some "Eggs") 0) :=
  swap_failure_is_structured S0 "Keto Diet" "Breakfast" "Eggs" 0
    (by decide) (by decide) (by decide)

/-! ### Claims about `get_prediction` -/

/-- A concrete stand-in for the opaque classifier: always class 0. -/
def classify0 : List ℚ → Nat := fun _ => 0

/-- The feature vector `get_prediction` builds for `P0`. -/
def F0 : List ℚ := [30, 1, 175, 70, 242 / 10, 0, 120, 80, 180, 95, 7]

/-- A content-store entry whose meal-option list is empty. -/
def emptyDiet : DietPlan :=
  { name := "Balanced Diet", description := "No options yet.", meal_options := [] }

/-- A one-diet store whose only diet has no meal options. -/
def S1 : DietStore := [("Balanced Diet", emptyDiet)]

lemma meal_plan_map_eq_none {n : Nat} (h : 5 ≤ n) : meal_plan_map n = none := by
  obtain ⟨m, rfl⟩ : ∃ m, n = m + 5 := ⟨n - 5, by omega⟩
  rfl

/-- The optional profile fields, in feature-vector order: BMI, chronic
disease, blood pressure systolic/diastolic, cholesterol, blood sugar,
sleep hours. -/
def Profile.optionalFields (p : Profile) : List (Option Val) :=
  [p.bmi, p.chronic_disease, p.blood_pressure_systolic,
   p.blood_pressure_diastolic, p.cholesterol_level, p.blood_sugar_level,
   p.sleep_hours]

lemma buildFeatures_some_optional {p : Profile} {fs : List ℚ}
    (hfs : buildFeatures p = some fs) :
    ∀ v ∈ p.optionalFields, (v.getD .null).truthy = true →
      pyFloat (v.getD .null) ≠ none := by
  intro v hv ht hn
  unfold buildFeatures at hfs
  simp only [Option.bind_eq_bind, Option.bind_eq_some, Option.pure_def,
    Option.some.injEq] at hfs
  obtain ⟨a, ha, g, hg, h, hh, w, hw, b1, hb1, b2, hb2, b3, hb3, b4, hb4,
    b5, hb5, b6, hb6, b7, hb7, -⟩ := hfs
  have hfail : ∀ d, floatOrDefault v d = none := by
    intro d
    simp [floatOrDefault, ht, hn]
  simp only [Profile.optionalFields, List.mem_cons, List.mem_singleton,
    List.not_mem_nil, or_false] at hv
  rcases hv with rfl | rfl | rfl | rfl | rfl | rfl | rfl
  · simp [hfail] at hb1
  · simp [hfail] at hb2
  · simp [hfail] at hb3
  · simp [hfail] at hb4
  · simp [hfail] at hb5
  · simp [hfail] at hb6
  · simp [hfail] at hb7

lemma buildFeatures_some_required {p : Profile} {fs : List ℚ}
    (hfs : buildFeatures p = some fs) :
    floatReq p.age ≠ none ∧ floatReq p.gender ≠ none ∧
    floatReq p.height_cm ≠ none ∧ floatReq p.weight_kg ≠ none := by
  unfold buildFeatures at hfs
  simp only [Option.bind_eq_bind, Option.bind_eq_some, Option.pure_def,
    Option.some.injEq] at hfs
  obtain ⟨a, ha, g, hg, h, hh, w, hw, -⟩ := hfs
  exact ⟨by simp [ha], by simp [hg], by simp [hh], by simp [hw]⟩

/-- C5: each failure case of `/get-prediction` yields a structured failure
result with its message rather than a crash: a missing required field, a
feature-vector build failure (non-numeric data), a classifier index outside
the 5-entry enumeration, or a mapped category absent from the content
store; otherwise a success result carrying the category and a
recommendation is returned. -/
theorem prediction_failures_are_structured (store : DietStore) (p : Profile)
    (classify : List ℚ → Nat) (k : Nat) :
    ((p.age = none ∨ p.gender = none ∨ p.height_cm = none ∨ p.weight_kg = none) →
      get_prediction store p classify k =
        .failure "Please complete your profile first! Age, gender, height, and weight are required.") ∧
    (p.requiredOk = true → buildFeatures p = none →
      get_prediction store p classify k =
        .failure "Invalid data in profile. Please check your details.") ∧
    (∀ v, p.requiredOk = true →
      (v = p.age ∨ v = p.gender ∨ v = p.height_cm ∨ v = p.weight_kg) →
      pyFloat (v.getD .null) = none →
      get_prediction store p classify k =
        .failure "Invalid data in profile. Please check your details.") ∧
    (∀ v, p.requiredOk = true → v ∈ p.optionalFields →
      (v.getD .null).truthy = true → pyFloat (v.getD .null) = none →
      get_prediction store p classify k =
        .failure "Invalid data in profile. Please check your details.") ∧
    (∀ fs, p.requiredOk = true → buildFeatures p = some fs → 5 ≤ classify fs →
      get_prediction store p classify k =
        .failure "Could not find a matching diet plan for the prediction.") ∧
    (∀ fs name, p.requiredOk = true → buildFeatures p = some fs →
      meal_plan_map (classify fs) = some name → store.get name = none →
      get_prediction store p classify k =
        .failure "Could not find a matching diet plan for the prediction.") ∧
    (∀ fs name dd, p.requiredOk = true → buildFeatures p = some fs →
      meal_plan_map (classify fs) = some name → store.get name = some dd →
      ∃ rec, get_prediction store p classify k = .success name rec) := by
  have hinv : ∀ hro : p.requiredOk = true, ∀ hbf : buildFeatures p = none,
      get_prediction store p classify k =
        .failure "Invalid data in profile. Please check your details." := by
    intro hro hbf
    unfold get_prediction
    rw [if_neg (by simp [hro])]
    simp only [hbf]
  refine ⟨?_, hinv, ?_, ?_, ?_, ?_, ?_⟩
  · intro h
    have hro : p.requiredOk = false := by
      unfold Profile.requiredOk
      rcases h with h | h | h | h <;> simp [h]
    unfold get_prediction
    rw [if_pos (by simp [hro])]
  · intro v hro hvsel hnum
    refine hinv hro ?_
    cases hb : buildFeatures p with
    | none => rfl
    | some fs =>
      have hreq := buildFeatures_some_required hb
      rcases hvsel with rfl | rfl | rfl | rfl
      · exact absurd (show floatReq p.age = none from hnum) hreq.1
      · exact absurd (show floatReq p.gender = none from hnum) hreq.2.1
      · exact absurd (show floatReq p.height_cm = none from hnum) hreq.2.2.1
      · exact absurd (show floatReq p.weight_kg = none from hnum) hreq.2.2.2
  · intro v hro hv ht hnum
    refine hinv hro ?_
    cases hb : buildFeatures p with
    | none => rfl
    | some fs => exact absurd hnum (buildFeatures_some_optional hb v hv ht)
  · intro fs hro hbf hge
    unfold get_prediction
    rw [if_neg (by simp [hro])]
    simp only [hbf, meal_plan_map_eq_none hge]
  · intro fs name hro hbf hmap hget
    unfold get_prediction
    rw [if_neg (by simp [hro])]
    simp only [hbf, hmap, hget]
  · intro fs name dd hro hbf hmap hget
    refine ⟨dd.meal_options.get? (k % dd.meal_options.length), ?_⟩
    unfold get_prediction
    rw [if_neg (by simp [hro])]
    simp only [hbf, hmap, hget]

/-- C5 witness: the spec's worked example succeeds on the fixture
store/profile/classifier. -/
theorem prediction_failures_are_structured_witness :
    ∃ rec, get_prediction S0 P0 classify0 0 = .success "Balanced Diet" rec :=
  (prediction_failures_are_structured S0 P0 classify0 0).2.2.2.2.2.2 F0
    "Balanced Diet" balanced (by decide) rfl rfl (by decide)

/-- C10: a predicted category that exists in the store but has an empty
meal-option list is reported as success with a `null` recommendation, not
as a failure. -/
theorem empty_options_reported_as_success (store : DietStore) (p : Profile)
    (classify : List ℚ → Nat) (k : Nat) (fs : List ℚ) (name : String)
    (dd : DietPlan) (hro : p.requiredOk = true)
    (hbf : buildFeatures p = some fs)
    (hmap : meal_plan_map (classify fs) = some name)
    (hget : store.get name = some dd) (hempty : dd.meal_options = []) :
    get_prediction store p classify k = .success name none := by
  unfold get_prediction
  rw [if_neg (by simp [hro])]
  simp only [hbf, hmap, hget]
  simp [hempty]

/-- C10 witness: the empty-options fixture store. -/
theorem empty_options_reported_as_success_witness :
    get_prediction S1 P0 classify0 0 = .success "Balanced Diet" none :=
  empty_options_reported_as_success S1 P0 classify0 0 F0 "Balanced Diet"
    emptyDiet (by decide) rfl rfl (by decide) rfl

/-- C8: whenever `/get-prediction` succeeds with a category, the returned
recommendation is drawn from that category's meal-option sets in the store
(or is `null` exactly when that list is empty), and every one of the
category's option sets is returned under some choice seed — repeated calls
may differ but always stay within the category's defined set. -/
theorem success_recommendation_from_category (store : DietStore) (p : Profile)
    (classify : List ℚ → Nat) (k : Nat) (name : String) (rec : Option MealOption)
    (hs : get_prediction store p classify k = .success name rec) :
    ∃ dd, store.get name = some dd ∧
      ((dd.meal_options = [] ∧ rec = none) ∨ ∃ m ∈ dd.meal_options, rec = some m) ∧
      (∀ m ∈ dd.meal_options, ∃ k2,
        get_prediction store p classify k2 = .success name (some m)) := by
  unfold get_prediction at hs
  by_cases hro : p.requiredOk = true
  case neg =>
    rw [if_pos (by simp [hro])] at hs
    exact absurd hs (by simp)
  case pos =>
    rw [if_neg (by simp [hro])] at hs
    cases hbf : buildFeatures p with
    | none =>
      simp only [hbf] at hs
      exact PredResult.noConfusion hs
    | some fs =>
      simp only [hbf] at hs
      cases hmap : meal_plan_map (classify fs) with
      | none =>
        simp only [hmap] at hs
        exact PredResult.noConfusion hs
      | some nm =>
        simp only [hmap] at hs
        cases hget : store.get nm with
        | none =>
          simp only [hget] at hs
          exact PredResult.noConfusion hs
        | some dd =>
          simp only [hget] at hs
          simp only [PredResult.success.injEq] at hs
          obtain ⟨rfl, hrec⟩ := hs
          refine ⟨dd, hget, ?_, ?_⟩
          · by_cases hemp : dd.meal_options = []
            · left
              refine ⟨hemp, ?_⟩
              rw [hemp] at hrec
              simpa using hrec.symm
            · right
              have hlt : k % dd.meal_options.length < dd.meal_options.length :=
                Nat.mod_lt _ (List.length_pos.mpr hemp)
              rw [List.get?_eq_get hlt] at hrec
              exact ⟨_, List.get_mem _ _ _, hrec.symm⟩
          · intro m hm
            obtain ⟨n, hn⟩ := List.mem_iff_get.mp hm
            refine ⟨n.1, ?_⟩
            unfold get_prediction
            rw [if_neg (by simp [hro])]
            simp only [hbf, hmap, hget]
            rw [Nat.mod_eq_of_lt n.2, List.get?_eq_get n.2, hn]

/-- C8 witness: applying the theorem to a concrete successful call on the
two-option fixture. -/
theorem success_recommendation_from_category_witness :
    ∃ dd, S0.get "Balanced Diet" = some dd ∧
      ((dd.meal_options = [] ∧ balanced.meal_options.get? 0 = none) ∨
        ∃ m ∈ dd.meal_options, balanced.meal_options.get? 0 = some m) ∧
      (∀ m ∈ dd.meal_options, ∃ k2,
        get_prediction S0 P0 classify0 k2 = .success "Balanced Diet" (some m)) :=
  success_recommendation_from_category S0 P0 classify0 0 "Balanced Diet"
    (balanced.meal_options.get? 0) (by decide)

/-! ### Claim C3: fallback constants for optional fields -/

/-- The worked-example profile with a non-numeric (but truthy)
chronic-disease value. -/
def PBadChronic : Profile := { P0 with chronic_disease := some (.str "yes") }

/-- C3 counterexample: with required fields valid and the optional
chronic-disease field set to the non-numeric string "yes", the prediction
does not fall back to the constant 0 and succeed — it returns the
"Invalid data" failure. -/
theorem optional_nonnumeric_no_fallback_cex :
    get_prediction S0 PBadChronic classify0 0 =
      .failure "Invalid data in profile. Please check your details." := by
  decide

/-- C3 amended: an optional profile field that is absent or falsy
(Python `None`, the empty string, or 0) is replaced by its fixed fallback
constant — BMI 24.2, chronic disease 0, blood pressure 120/80, cholesterol
180, blood sugar 95, sleep 7 — and the prediction still succeeds (given the
classifier maps into the store); but an optional field holding a truthy
non-numeric value makes the prediction return the structured "Invalid
data" failure instead of falling back. -/
theorem optional_fallbacks_amended :
    (∀ (p : Profile) (a g h w : ℚ),
      floatReq p.age = some a → floatReq p.gender = some g →
      floatReq p.height_cm = some h → floatReq p.weight_kg = some w →
      (∀ v ∈ p.optionalFields, (v.getD .null).truthy = false) →
      buildFeatures p = some [a, g, h, w, 242 / 10, 0, 120, 80, 180, 95, 7] ∧
      (∀ (store : DietStore) (classify : List ℚ → Nat) (k : Nat)
          (name : String) (dd : DietPlan),
        p.requiredOk = true →
        meal_plan_map (classify [a, g, h, w, 242 / 10, 0, 120, 80, 180, 95, 7]) =
          some name →
        store.get name = some dd →
        ∃ rec, get_prediction store p classify k = .success name rec)) ∧
    (∀ (store : DietStore) (p : Profile) (classify : List ℚ → Nat) (k : Nat),
      p.requiredOk = true →
      (∃ v ∈ p.optionalFields, (v.getD .null).truthy = true ∧
        pyFloat (v.getD .null) = none) →
      get_prediction store p classify k =
        .failure "Invalid data in profile. Please check your details.") := by
  constructor
  · intro p a g h w ha hg hh hw hf
    have h1 := hf p.bmi (by simp [Profile.optionalFields])
    have h2 := hf p.chronic_disease (by simp [Profile.optionalFields])
    have h3 := hf p.blood_pressure_systolic (by simp [Profile.optionalFields])
    have h4 := hf p.blood_pressure_diastolic (by simp [Profile.optionalFields])
    have h5 := hf p.cholesterol_level (by simp [Profile.optionalFields])
    have h6 := hf p.blood_sugar_level (by simp [Profile.optionalFields])
    have h7 := hf p.sleep_hours (by simp [Profile.optionalFields])
    have hbf : buildFeatures p =
        some [a, g, h, w, 242 / 10, 0, 120, 80, 180, 95, 7] := by
      unfold buildFeatures
      simp only [ha, hg, hh, hw, floatOrDefault, h1, h2, h3, h4, h5, h6, h7,
        Option.bind_eq_bind, Option.some_bind, Bool.false_eq_true, if_false,
        Option.pure_def]
    refine ⟨hbf, ?_⟩
    intro store classify k name dd hro hmap hget
    refine ⟨dd.meal_options.get? (k % dd.meal_options.length), ?_⟩
    unfold get_prediction
    rw [if_neg (by simp [hro])]
    simp only [hbf, hmap, hget]
  · intro store p classify k hro hex
    have hbf : buildFeatures p = none := by
      cases hb : buildFeatures p with
      | none => rfl
      | some fs =>
        obtain ⟨v, hv, ht, hn⟩ := hex
        exact absurd hn (buildFeatures_some_optional hb v hv ht)
    unfold get_prediction
    rw [if_neg (by simp [hro])]
    simp only [hbf]

/-- C3 witness: the worked-example profile with every optional field
absent builds the fallback feature vector and succeeds on the fixture. -/
theorem optional_fallbacks_amended_witness :
    buildFeatures P0 = some [30, 1, 175, 70, 242 / 10, 0, 120, 80, 180, 95, 7] ∧
    (∀ (store : DietStore) (classify : List ℚ → Nat) (k : Nat)
        (name : String) (dd : DietPlan),
      P0.requiredOk = true →
      meal_plan_map (classify [30, 1, 175, 70, 242 / 10, 0, 120, 80, 180, 95, 7]) =
        some name →
      store.get name = some dd →
      ∃ rec, get_prediction store P0 classify k = .success name rec) :=
  optional_fallbacks_amended.1 P0 30 1 175 70 rfl rfl rfl rfl (by decide)

/-! ### Claim C4: derived BMI on profile submission -/

/-- The spec's worked-example form submission: age 30, gender 1, height
175 cm, weight 70 kg, all other fields left blank. -/
def exampleForm : ProfileForm :=
  { age := some "30", gender := some "1", height_cm := some "175",
    weight_kg := some "70", chronic_disease := none,
    blood_pressure_systolic := none, blood_pressure_diastolic := none,
    cholesterol_level := none, blood_sugar_level := none, sleep_hours := none }

/-- C4: on every profile submission, when both height and weight are
present, non-empty, and parse as floats with non-zero height, the stored
BMI is the weight divided by the squared height in metres, rounded to one
decimal place; in every other case the stored BMI is null. The spec's
example (175 cm, 70 kg) rounds to 22.9. -/
theorem bmi_recompute_on_submission (uid : String) (f : ProfileForm) :
    (∀ (h w : String) (hq wq : ℚ), f.height_cm = some h → f.weight_kg = some w →
      h ≠ "" → w ≠ "" → pyFloatStr h = some hq → pyFloatStr w = some wq →
      hq ≠ 0 →
      (mkProfileDoc uid f).bmi = some (pyRound1 (wq / (hq / 100) ^ 2))) ∧
    ((¬ ∃ (h w : String) (hq wq : ℚ), f.height_cm = some h ∧ f.weight_kg = some w ∧
        h ≠ "" ∧ w ≠ "" ∧ pyFloatStr h = some hq ∧ pyFloatStr w = some wq ∧
        hq ≠ 0) →
      (mkProfileDoc uid f).bmi = none) ∧
    pyRound1 ((70 : ℚ) / ((175 : ℚ) / 100) ^ 2) = 229 / 10 := by
  refine ⟨?_, ?_, ?_⟩
  · intro h w hq wq hh hw hne hwe hph hpw hq0
    show computeBmi f.height_cm f.weight_kg = _
    rw [hh, hw]
    simp only [computeBmi]
    rw [if_pos ⟨hne, hwe⟩]
    simp only [hph, hpw]
    rw [if_neg (pow_ne_zero 2 (div_ne_zero hq0 (by norm_num)))]
  · intro hno
    push_neg at hno
    show computeBmi f.height_cm f.weight_kg = none
    cases hh : f.height_cm with
    | none => rfl
    | some h =>
      cases hw : f.weight_kg with
      | none => rfl
      | some w =>
        simp only [computeBmi]
        by_cases hne : h ≠ "" ∧ w ≠ ""
        · rw [if_pos hne]
          cases hph : pyFloatStr h with
          | none => rfl
          | some hq =>
            cases hpw : pyFloatStr w with
            | none => rfl
            | some wq =>
              have hq0 : hq = 0 := hno h w hq wq hh hw hne.1 hne.2 hph hpw
              subst hq0
              norm_num
        · rw [if_neg hne]
  · have harith : (70 : ℚ) / ((175 : ℚ) / 100) ^ 2 = 160 / 7 := by norm_num
    rw [harith]
    unfold pyRound1 roundHalfEven
    norm_num

/-- C4 witness: the worked example stores BMI 22.9. -/
theorem bmi_recompute_on_submission_witness :
    (mkProfileDoc "u" exampleForm).bmi =
      some (pyRound1 ((70 : ℚ) / ((175 : ℚ) / 100) ^ 2)) ∧
    pyRound1 ((70 : ℚ) / ((175 : ℚ) / 100) ^ 2) = 229 / 10 :=
  ⟨(bmi_recompute_on_submission "u" exampleForm).1 "175" "70" 175 70
      rfl rfl (by decide) (by decide) rfl rfl (by norm_num),
    (bmi_recompute_on_submission "u" exampleForm).2.2⟩

/-! ### Claim C7: profile upsert -/

/-- At most one profile document per user id. -/
def atMostOnePerUser (s : List ProfileDoc) : Prop :=
  (s.map (fun d => d.user_id)).Nodup

lemma submitProfile_map_user (uid : String) (f : ProfileForm)
    (s : List ProfileDoc) :
    (submitProfile uid f s).map (fun d => d.user_id) =
      if uid ∈ s.map (fun d => d.user_id) then s.map (fun d => d.user_id)
      else s.map (fun d => d.user_id) ++ [uid] := by
  induction s with
  | nil => simp [submitProfile, mkProfileDoc]
  | cons d ds ih =>
    by_cases hd : d.user_id = uid
    · simp [submitProfile, hd, mkProfileDoc]
    · have huid : ¬ uid = d.user_id := fun h => hd h.symm
      by_cases hm : uid ∈ ds.map (fun d => d.user_id)
      · simp [submitProfile, hd, ih, hm, List.mem_cons, huid]
      · simp [submitProfile, hd, ih, hm, List.mem_cons, huid]

/-- C7: a profile submission replaces the submitting user's document
wholesale — under the one-per-user invariant, the documents stored for that
user afterwards are exactly the single freshly built document (every field
from the submitted form) — the invariant is preserved by every submission,
and any sequence of submissions starting from an empty collection leaves
at most one profile document per user id. -/
theorem profile_upsert_wholesale_unique :
    (∀ (uid : String) (f : ProfileForm) (s : List ProfileDoc),
      atMostOnePerUser s →
      (submitProfile uid f s).filter (fun d => d.user_id == uid) =
        [mkProfileDoc uid f]) ∧
    (∀ (uid : String) (f : ProfileForm) (s : List ProfileDoc),
      atMostOnePerUser s → atMostOnePerUser (submitProfile uid f s)) ∧
    (∀ subs : List (String × ProfileForm),
      atMostOnePerUser (subs.foldl (fun s q => submitProfile q.1 q.2 s) [])) := by
  have hpres : ∀ (uid : String) (f : ProfileForm) (s : List ProfileDoc),
      atMostOnePerUser s → atMostOnePerUser (submitProfile uid f s) := by
    intro uid f s hs
    unfold atMostOnePerUser at hs ⊢
    rw [submitProfile_map_user]
    by_cases hm : uid ∈ s.map (fun d => d.user_id)
    · simpa [hm] using hs
    · simp [hm, List.nodup_append, hs]
  refine ⟨?_, hpres, ?_⟩
  · intro uid f s
    induction s with
    | nil => intro _; simp [submitProfile, mkProfileDoc]
    | cons d ds ih =>
      intro hs
      have hnod := List.nodup_cons.mp hs
      by_cases hd : d.user_id = uid
      · have hnin : uid ∉ ds.map (fun d => d.user_id) := hd ▸ hnod.1
        have hfil : ds.filter (fun d => d.user_id == uid) = [] := by
          rw [List.filter_eq_nil_iff]
          intro a ha hbeq
          exact hnin (List.mem_map.mpr ⟨a, ha, by simpa using hbeq⟩)
        simp [submitProfile, hd, List.filter_cons, mkProfileDoc, hfil]
      · have : (submitProfile uid f ds).filter (fun d => d.user_id == uid) =
            [mkProfileDoc uid f] := ih hnod.2
        simp [submitProfile, hd, List.filter_cons, this]
  · intro subs
    have hgen : ∀ (s : List ProfileDoc), atMostOnePerUser s →
        atMostOnePerUser (subs.foldl (fun s q => submitProfile q.1 q.2 s) s) := by
      induction subs with
      | nil => intro s hs; simpa using hs
      | cons q qs ih =>
        intro s hs
        exact ih _ (hpres q.1 q.2 s hs)
    exact hgen [] (by simp [atMostOnePerUser])

/-- C7 witness: a first submission into the empty collection. -/
theorem profile_upsert_wholesale_unique_witness :
    (submitProfile "u" exampleForm []).filter (fun d => d.user_id == "u") =
      [mkProfileDoc "u" exampleForm] ∧
    atMostOnePerUser (submitProfile "u" exampleForm []) :=
  ⟨profile_upsert_wholesale_unique.1 "u" exampleForm [] (by simp [atMostOnePerUser]),
   profile_upsert_wholesale_unique.2.1 "u" exampleForm [] (by simp [atMostOnePerUser])⟩

/-! ### Claim C2: idempotent like (spec-modelled) -/

/-- C2: liking twice with identical arguments is a no-op the second time;
starting from a store with no record for the triple, two identical likes
leave exactly one stored record for that (user, diet, plan-index) triple
and increase the like count of that (diet, plan-index) pair by exactly
one. -/
theorem like_idempotent (u d : String) (i : Nat) (s : List LikeRec) :
    like u d i (like u d i s) = like u d i s ∧
    (likeRecords u d i s = [] →
      likeRecords u d i (like u d i (like u d i s)) = [⟨u, d, i⟩] ∧
      count_likes d i (like u d i (like u d i s)) = count_likes d i s + 1) := by
  have hself : matchesLike u d i ⟨u, d, i⟩ = true := by simp [matchesLike]
  have hidem : like u d i (like u d i s) = like u d i s := by
    by_cases hany : s.any (matchesLike u d i) = true
    · simp [like, hany]
    · have happ : (s ++ [(⟨u, d, i⟩ : LikeRec)]).any (matchesLike u d i) = true := by
        simp [List.any_append, hself]
      simp [like, hany, happ]
  refine ⟨hidem, ?_⟩
  intro hrec
  have hnone : s.any (matchesLike u d i) = false := by
    rw [List.any_eq_false]
    exact fun r hr => (List.filter_eq_nil_iff.mp hrec) r hr
  have hlike : like u d i s = s ++ [⟨u, d, i⟩] := by
    simp [like, hnone]
  rw [hidem, hlike]
  constructor
  · unfold likeRecords
    rw [List.filter_append]
    unfold likeRecords at hrec
    rw [hrec]
    simp [hself]
  · unfold count_likes
    rw [List.filter_append]
    simp

/-- C2 witness: two likes of ("alice", "Balanced Diet", 0) on the empty
store. -/
theorem like_idempotent_witness :
    like "alice" "Balanced Diet" 0 (like "alice" "Balanced Diet" 0 []) =
      like "alice" "Balanced Diet" 0 [] ∧
    (likeRecords "alice" "Balanced Diet" 0 [] = [] →
      likeRecords "alice" "Balanced Diet" 0
          (like "alice" "Balanced Diet" 0 (like "alice" "Balanced Diet" 0 [])) =
        [⟨"alice", "Balanced Diet", 0⟩] ∧
      count_likes "Balanced Diet" 0
          (like "alice" "Balanced Diet" 0 (like "alice" "Balanced Diet" 0 [])) =
        count_likes "Balanced Diet" 0 [] + 1) :=
  like_idempotent "alice" "Balanced Diet" 0 []

/-! ### Claim C6: owner-scoped deletes -/

/-- C6: the delete routes remove a saved record only when it exists and is
owned by the requesting user; when no record matches both the id and the
user — whether the id is absent or the record belongs to someone else —
the store is unchanged and the same generic "not found or permission
denied" response (HTTP 404) is returned; when a matching record exists,
exactly that record is removed and a success response returned. -/
theorem delete_requires_ownership (uid : String) (pid : Nat)
    (s : List SavedDoc) :
    ((∀ r ∈ s, ¬(r.oid = pid ∧ r.user_id = uid)) →
      delete_plan uid pid s =
        (s, .notFound "Plan not found or permission denied." 404) ∧
      delete_workout uid pid s =
        (s, .notFound "Workout not found or permission denied." 404)) ∧
    (∀ r, r ∈ s → r.oid = pid → r.user_id = uid →
      ∃ l₁ r2 l₂, s = l₁ ++ r2 :: l₂ ∧ r2.oid = pid ∧ r2.user_id = uid ∧
        (∀ b ∈ l₁, ¬(b.oid = pid ∧ b.user_id = uid)) ∧
        delete_plan uid pid s = (l₁ ++ l₂, .ok "Plan deleted successfully.") ∧
        delete_workout uid pid s =
          (l₁ ++ l₂, .ok "Workout deleted successfully.")) := by
  constructor
  · intro hno
    have hany : s.any (fun r => r.oid == pid && r.user_id == uid) = false := by
      rw [List.any_eq_false]
      intro r hr
      simpa using hno r hr
    constructor <;> simp [delete_plan, delete_workout, deleteOne, hany]
  · intro r hr hro hru
    have hp : (fun r => r.oid == pid && r.user_id == uid) r = true := by
      simp [hro, hru]
    have hany : s.any (fun r => r.oid == pid && r.user_id == uid) = true := by
      rw [List.any_eq_true]
      exact ⟨r, hr, hp⟩
    obtain ⟨a, l₁, l₂, hl1, hpa, hseq, herase⟩ :=
      @List.exists_of_eraseP _ (fun r => r.oid == pid && r.user_id == uid) s r hr hp
    refine ⟨l₁, a, l₂, hseq, ?_, ?_, ?_, ?_, ?_⟩
    · simpa using (Bool.and_eq_true _ _ |>.mp hpa).1
    · simpa using (Bool.and_eq_true _ _ |>.mp hpa).2
    · intro b hb
      have := hl1 b hb
      simpa using this
    · simp [delete_plan, deleteOne, hany, herase]
    · simp [delete_workout, deleteOne, hany, herase]

/-- C6 witness: a record owned by "alice": deleting as "bob" is denied and
leaves the store unchanged; deleting as "alice" removes it. -/
theorem delete_requires_ownership_witness :
    (delete_plan "bob" 1 [⟨1, "alice", "x"⟩] =
        ([⟨1, "alice", "x"⟩], .notFound "Plan not found or permission denied." 404)) ∧
    (∃ l₁ r2 l₂, ([⟨1, "alice", "x"⟩] : List SavedDoc) = l₁ ++ r2 :: l₂ ∧
      r2.oid = 1 ∧ r2.user_id = "alice" ∧
      (∀ b ∈ l₁, ¬(b.oid = 1 ∧ b.user_id = "alice")) ∧
      delete_plan "alice" 1 [⟨1, "alice", "x"⟩] =
        (l₁ ++ l₂, .ok "Plan deleted successfully.") ∧
      delete_workout "alice" 1 [⟨1, "alice", "x"⟩] =
        (l₁ ++ l₂, .ok "Workout deleted successfully.")) :=
  ⟨((delete_requires_ownership "bob" 1 [⟨1, "alice", "x"⟩]).1 (by decide)).1,
   (delete_requires_ownership "alice" 1 [⟨1, "alice", "x"⟩]).2
     ⟨1, "alice", "x"⟩ (by decide) rfl rfl⟩

end SmartDiet
